import Mathlib

/-!
Formal model of the resilient element-location and safe-interaction engine
(`src/utils/element_finder.py`) and of the headless-mode resolution in the
browser session lifecycle manager (`src/utils/driver_manager.py`).

The page/driver environment is abstracted as a function from selector strings
to per-call outcomes: a selector either matches within its per-selector
timeout (yielding an element handle, modelled as a `Nat` id, together with the
elapsed search time as a rational), times out, or raises some other error.
Wall-clock waiting is abstracted away; the outcome already encodes whether the
match happened within the timeout.  Statistics counters are natural numbers,
and timing values are rationals, with the Python `float('inf')` sentinel for
`fastest_search` modelled by an explicit top element (`FloatTop.inf`).
-/

namespace ChatAuto

/-- The five wait strategies of `FindStrategy` in the source. -/
inductive FindStrategy where
  | presence
  | visible
  | clickable
  | text_present
  | attribute_present
deriving DecidableEq

/-- An attempts/successes counter pair, the value shape used both by
`selector_usage` and by `strategy_success_rate` entries. -/
structure StratStat where
  attempts : Nat
  successes : Nat
deriving DecidableEq

/-- The `strategy_success_rate` dict: one counter pair per strategy, keyed in
the source by the strategy value strings; initialised for all five. -/
structure StrategyRates where
  presence : StratStat
  visible : StratStat
  clickable : StratStat
  text_present : StratStat
  attribute_present : StratStat
deriving DecidableEq

/-- The `retry_counts` dict of the statistics. -/
structure RetryCounts where
  click : Nat
  send_keys : Nat
  get_text : Nat
deriving DecidableEq

/-- A rational extended with the `float` infinity used as the initial value of
`fastest_search`. -/
inductive FloatTop where
  | inf
  | val (q : ℚ)
deriving DecidableEq

/-- Python `min(fastest_search, t)` where `fastest_search` may be infinity. -/
def FloatTop.minQ : FloatTop → ℚ → FloatTop
  | .inf, t => .val t
  | .val f, t => .val (min f t)

/-- The `timing` sub-dict of the statistics. -/
structure Timing where
  fastest_search : FloatTop
  slowest_search : ℚ
  average_search_time : ℚ
deriving DecidableEq

/-- The full statistics dict of `ElementFinder`.  `selector_usage` is an
association list in insertion order, mirroring a Python dict. -/
structure Statistics where
  total_searches : Nat
  successful_searches : Nat
  failed_searches : Nat
  selector_usage : List (String × StratStat)
  strategy_success_rate : StrategyRates
  retry_counts : RetryCounts
  timing : Timing
deriving DecidableEq

/-- The initial value of `strategy_success_rate` built in `__init__`. -/
def initStrategyRates : StrategyRates :=
  ⟨⟨0, 0⟩, ⟨0, 0⟩, ⟨0, 0⟩, ⟨0, 0⟩, ⟨0, 0⟩⟩

/-- The statistics dict as built by `ElementFinder.__init__`. -/
def initStatistics : Statistics where
  total_searches := 0
  successful_searches := 0
  failed_searches := 0
  selector_usage := []
  strategy_success_rate := initStrategyRates
  retry_counts := ⟨0, 0, 0⟩
  timing := ⟨.inf, 0, 0⟩

/-- The `ElementFinder` object: the driver is an opaque handle id. -/
structure ElementFinder where
  driver : Nat
  default_timeout : Nat
  statistics : Statistics
deriving DecidableEq

/-- `ElementFinder.__init__`. -/
def ElementFinder.init (driver : Nat) (default_timeout : Nat) : ElementFinder :=
  ⟨driver, default_timeout, initStatistics⟩

/-- `SelectorNotFoundError` from `src/core/exceptions.py`: carries the full
attempted selector list and a service name. -/
structure SelErr where
  selectors_tried : List String
  service : String
deriving DecidableEq

/-- Outcome of testing one selector against the page: matched within its
timeout (with an element id and the elapsed time), timed out, or raised some
other unexpected error. -/
inductive SelOutcome where
  | found (e : Nat) (t : ℚ)
  | timeout
  | error
deriving DecidableEq

/-- Whether a selector outcome is a match. -/
def isFound : SelOutcome → Bool
  | .found _ _ => true
  | .timeout => false
  | .error => false

/-- Update `selector_usage` as the search loop does: create a zero entry if
the selector is new (appended, as in a Python dict), then bump `attempts`. -/
def bumpAttempts : List (String × StratStat) → String → List (String × StratStat)
  | [], s => [(s, ⟨1, 0⟩)]
  | (k, v) :: rest, s =>
    if k = s then (k, ⟨v.attempts + 1, v.successes⟩) :: rest
    else (k, v) :: bumpAttempts rest s

/-- Bump the `successes` counter of an existing `selector_usage` entry. -/
def bumpUsageSuccess : List (String × StratStat) → String → List (String × StratStat)
  | [], _ => []
  | (k, v) :: rest, s =>
    if k = s then (k, ⟨v.attempts, v.successes + 1⟩) :: rest
    else (k, v) :: bumpUsageSuccess rest s

/-- Dict lookup in `selector_usage`. -/
def lookupUsage : List (String × StratStat) → String → Option StratStat
  | [], _ => none
  | (k, v) :: rest, s => if k = s then some v else lookupUsage rest s

/-- Bump the `attempts` field of the strategy entry. -/
def bumpStratAttempts (r : StrategyRates) : FindStrategy → StrategyRates
  | .presence => { r with presence := ⟨r.presence.attempts + 1, r.presence.successes⟩ }
  | .visible => { r with visible := ⟨r.visible.attempts + 1, r.visible.successes⟩ }
  | .clickable => { r with clickable := ⟨r.clickable.attempts + 1, r.clickable.successes⟩ }
  | .text_present => { r with text_present := ⟨r.text_present.attempts + 1, r.text_present.successes⟩ }
  | .attribute_present => { r with attribute_present := ⟨r.attribute_present.attempts + 1, r.attribute_present.successes⟩ }

/-- Bump the `successes` field of the strategy entry. -/
def bumpStratSuccess (r : StrategyRates) : FindStrategy → StrategyRates
  | .presence => { r with presence := ⟨r.presence.attempts, r.presence.successes + 1⟩ }
  | .visible => { r with visible := ⟨r.visible.attempts, r.visible.successes + 1⟩ }
  | .clickable => { r with clickable := ⟨r.clickable.attempts, r.clickable.successes + 1⟩ }
  | .text_present => { r with text_present := ⟨r.text_present.attempts, r.text_present.successes + 1⟩ }
  | .attribute_present => { r with attribute_present := ⟨r.attribute_present.attempts, r.attribute_present.successes + 1⟩ }

/-- `_update_success_statistics`: bump the success counters and fold the
elapsed time into the timing extremes and running average.  As in the source,
the average divides by the post-increment `successful_searches` count. -/
def updateSuccess (st : Statistics) (selector : String) (strategy : FindStrategy)
    (t : ℚ) : Statistics :=
  let n := st.successful_searches + 1
  { st with
    successful_searches := n
    selector_usage := bumpUsageSuccess st.selector_usage selector
    strategy_success_rate := bumpStratSuccess st.strategy_success_rate strategy
    timing :=
      ⟨st.timing.fastest_search.minQ t,
       max st.timing.slowest_search t,
       ((st.timing.average_search_time * ((n : ℚ) - 1)) + t) / (n : ℚ)⟩ }

/-- The selector loop of `find_element_with_fallback`: try selectors in order,
bumping `selector_usage` attempts for each tried selector; return on the first
match; treat timeouts and any other per-selector error alike by skipping to
the next selector; after exhausting the list, bump `failed_searches` and
raise `SelectorNotFoundError(all_selectors, "unknown")`. -/
def findLoop (env : String → SelOutcome) (strategy : FindStrategy)
    (allSelectors : List String) :
    List String → Statistics → (Except SelErr (Nat × String)) × Statistics
  | [], st =>
    (.error ⟨allSelectors, "unknown"⟩,
     { st with failed_searches := st.failed_searches + 1 })
  | s :: rest, st =>
    let st1 := { st with selector_usage := bumpAttempts st.selector_usage s }
    match env s with
    | .found e t => (.ok (e, s), updateSuccess st1 s strategy t)
    | .timeout => findLoop env strategy allSelectors rest st1
    | .error => findLoop env strategy allSelectors rest st1

/-- `find_element_with_fallback`: bump `total_searches` and the strategy
attempt counter, then run the selector loop. -/
def find_element_with_fallback (ef : ElementFinder) (env : String → SelOutcome)
    (selectors : List String) (strategy : FindStrategy) :
    (Except SelErr (Nat × String)) × ElementFinder :=
  let st0 : Statistics :=
    { ef.statistics with
      total_searches := ef.statistics.total_searches + 1
      strategy_success_rate := bumpStratAttempts ef.statistics.strategy_success_rate strategy }
  let r := findLoop env strategy selectors selectors st0
  (r.1, { ef with statistics := r.2 })

/-- Modelled from the spec wording of first-match-wins: the element and
selector of the earliest selector in list order whose outcome is a match.
Used only to compare the source-derived search against the spec. -/
def firstFound (env : String → SelOutcome) : List String → Option (Nat × String)
  | [] => none
  | s :: rest =>
    match env s with
    | .found e _ => some (e, s)
    | .timeout => firstFound env rest
    | .error => firstFound env rest

/-- The portion of the selector list the engine tries: everything up to and
including the first matching selector, or the whole list when none match. -/
def matchSegment (env : String → SelOutcome) : List String → List String
  | [] => []
  | s :: rest => if isFound (env s) then [s] else s :: matchSegment env rest

/-- The argument of the safe operations: either a pre-resolved element handle
or a selector list to be resolved first. -/
inductive Target where
  | element (e : Nat)
  | selectors (ss : List String)

/-- `_resolve_element`: a selector list is resolved through
`find_element_with_fallback` (default strategy, default timeout) and a bare
element is returned as-is.  A failed resolve surfaces the
`SelectorNotFoundError` of the search. -/
def resolveElement (ef : ElementFinder) (env : String → SelOutcome) :
    Target → (Except SelErr Nat) × ElementFinder
  | .element e => (.ok e, ef)
  | .selectors ss =>
    match find_element_with_fallback ef env ss .presence with
    | (.ok p, ef') => (.ok p.1, ef')
    | (.error err, ef') => (.error err, ef')

/-- Add to the `click` retry counter. -/
def addClickRetries (ef : ElementFinder) (n : Nat) : ElementFinder :=
  { ef with statistics :=
    { ef.statistics with retry_counts :=
      { ef.statistics.retry_counts with click := ef.statistics.retry_counts.click + n } } }

/-- Add to the `send_keys` retry counter. -/
def addSendKeysRetries (ef : ElementFinder) (n : Nat) : ElementFinder :=
  { ef with statistics :=
    { ef.statistics with retry_counts :=
      { ef.statistics.retry_counts with send_keys := ef.statistics.retry_counts.send_keys + n } } }

/-- Add to the `get_text` retry counter. -/
def addGetTextRetries (ef : ElementFinder) (n : Nat) : ElementFinder :=
  { ef with statistics :=
    { ef.statistics with retry_counts :=
      { ef.statistics.retry_counts with get_text := ef.statistics.retry_counts.get_text + n } } }

/-- How one `safe_click` attempt plays out on the page: the click lands, the
element reference is stale, the element is not yet interactable, or some
other exception (including the clickable-wait timing out) occurs. -/
inductive ClickAttempt where
  | success
  | stale
  | notInteractable
  | failOther
deriving DecidableEq

/-- Whether a click attempt outcome is a success. -/
def clickIsSuccess : ClickAttempt → Bool
  | .success => true
  | _ => false

/-- The attempt loop of `safe_click`, fuelled by the remaining iteration
count of `range(retry_count + 1)`; `i` is the index of the next attempt and
is also the number of attempts made so far.  A stale reference re-resolves
the original target (propagating a `SelectorNotFoundError` when that resolve
fails); not-interactable and generic failures move to the next attempt; when
the loop is exhausted the `click` retry counter grows by `retry_count` and
the operation reports `false`. -/
def safe_click_loop (env : String → SelOutcome) (target : Target)
    (sc : Nat → ClickAttempt) (retry_count : Nat) :
    Nat → Nat → ElementFinder → (Except SelErr Bool) × ElementFinder × Nat
  | 0, i, ef => (.ok false, addClickRetries ef retry_count, i)
  | n + 1, i, ef =>
    match sc i with
    | .success => (.ok true, ef, i + 1)
    | .stale =>
      match resolveElement ef env target with
      | (.ok _, ef') => safe_click_loop env target sc retry_count n (i + 1) ef'
      | (.error err, ef') => (.error err, ef', i + 1)
    | .notInteractable => safe_click_loop env target sc retry_count n (i + 1) ef
    | .failOther => safe_click_loop env target sc retry_count n (i + 1) ef

/-- `safe_click`: resolve the target (a failed required resolve propagates),
then run up to `retry_count + 1` attempts.  The third component of the result
is the number of attempts performed. -/
def safe_click (ef : ElementFinder) (env : String → SelOutcome) (target : Target)
    (retry_count : Nat) (sc : Nat → ClickAttempt) :
    (Except SelErr Bool) × ElementFinder × Nat :=
  match resolveElement ef env target with
  | (.ok _, ef') => safe_click_loop env target sc retry_count (retry_count + 1) 0 ef'
  | (.error err, ef') => (.error err, ef', 0)

/-- How the clear-and-type phase of one `safe_send_keys` attempt plays out,
once the focusing click has succeeded. -/
inductive SendAttempt where
  | success
  | stale
  | failOther
deriving DecidableEq

/-- Whether a send-keys attempt outcome is a success. -/
def sendIsSuccess : SendAttempt → Bool
  | .success => true
  | _ => false

/-- The attempt loop of `safe_send_keys`: each attempt first runs a full
inner `safe_click` on the resolved element (with the source's default of 3
retries, script `isc i` for outer attempt `i`); a failed focus click skips to
the next attempt, then the clear-and-type phase follows `ssc i`.  A stale
reference re-resolves the original target; exhaustion grows the `send_keys`
retry counter by `retry_count` and reports `false`. -/
def safe_send_keys_loop (env : String → SelOutcome) (target : Target)
    (isc : Nat → Nat → ClickAttempt) (ssc : Nat → SendAttempt)
    (retry_count : Nat) (e : Nat) :
    Nat → Nat → ElementFinder → (Except SelErr Bool) × ElementFinder × Nat
  | 0, i, ef => (.ok false, addSendKeysRetries ef retry_count, i)
  | n + 1, i, ef =>
    match safe_click ef env (Target.element e) 3 (isc i) with
    | (.ok true, ef', _) =>
      match ssc i with
      | .success => (.ok true, ef', i + 1)
      | .stale =>
        match resolveElement ef' env target with
        | (.ok _, ef'') => safe_send_keys_loop env target isc ssc retry_count e n (i + 1) ef''
        | (.error err, ef'') => (.error err, ef'', i + 1)
      | .failOther => safe_send_keys_loop env target isc ssc retry_count e n (i + 1) ef'
    | (.ok false, ef', _) => safe_send_keys_loop env target isc ssc retry_count e n (i + 1) ef'
    | (.error err, ef', _) => (.error err, ef', i + 1)

/-- `safe_send_keys`: resolve the target (a failed required resolve
propagates), then run up to `retry_count + 1` attempts. -/
def safe_send_keys (ef : ElementFinder) (env : String → SelOutcome) (target : Target)
    (_text : String) (retry_count : Nat)
    (isc : Nat → Nat → ClickAttempt) (ssc : Nat → SendAttempt) :
    (Except SelErr Bool) × ElementFinder × Nat :=
  match resolveElement ef env target with
  | (.ok e, ef') => safe_send_keys_loop env target isc ssc retry_count e (retry_count + 1) 0 ef'
  | (.error err, ef') => (.error err, ef', 0)

/-- How one `safe_get_text` attempt plays out: some stage of the
text / innerText / textContent cascade yields a non-empty string, all three
are empty, the reference is stale, or another exception occurs. -/
inductive TextAttempt where
  | gotText (s : String)
  | empty
  | stale
  | failOther
deriving DecidableEq

/-- Whether a get-text attempt outcome yields a value. -/
def textGotValue : TextAttempt → Bool
  | .gotText _ => true
  | _ => false

/-- The attempt loop of `safe_get_text`: a non-empty text returns it, an
all-empty cascade or a generic failure moves to the next attempt, a stale
reference re-resolves the original target; exhaustion grows the `get_text`
retry counter by `retry_count` and reports the absent value. -/
def safe_get_text_loop (env : String → SelOutcome) (target : Target)
    (tsc : Nat → TextAttempt) (retry_count : Nat) :
    Nat → Nat → ElementFinder → (Except SelErr (Option String)) × ElementFinder × Nat
  | 0, i, ef => (.ok none, addGetTextRetries ef retry_count, i)
  | n + 1, i, ef =>
    match tsc i with
    | .gotText s => (.ok (some s), ef, i + 1)
    | .empty => safe_get_text_loop env target tsc retry_count n (i + 1) ef
    | .stale =>
      match resolveElement ef env target with
      | (.ok _, ef') => safe_get_text_loop env target tsc retry_count n (i + 1) ef'
      | (.error err, ef') => (.error err, ef', i + 1)
    | .failOther => safe_get_text_loop env target tsc retry_count n (i + 1) ef

/-- `safe_get_text`: resolve the target (a failed required resolve
propagates), then run up to `retry_count + 1` attempts. -/
def safe_get_text (ef : ElementFinder) (env : String → SelOutcome) (target : Target)
    (retry_count : Nat) (tsc : Nat → TextAttempt) :
    (Except SelErr (Option String)) × ElementFinder × Nat :=
  match resolveElement ef env target with
  | (.ok _, ef') => safe_get_text_loop env target tsc retry_count (retry_count + 1) 0 ef'
  | (.error err, ef') => (.error err, ef', 0)

/-- Whether an operation result is a normal return rather than a raised
exception. -/
def exOk {α : Type} : Except SelErr α → Bool
  | .ok _ => true
  | .error _ => false

/-- `reset_statistics`: re-invoke the constructor with the current driver and
`default_timeout`. -/
def reset_statistics (ef : ElementFinder) : ElementFinder :=
  ElementFinder.init ef.driver ef.default_timeout

/-- One call of a search sequence: the page environment, the selector list
and the strategy passed to `find_element_with_fallback`. -/
structure SearchInput where
  env : String → SelOutcome
  selectors : List String
  strategy : FindStrategy

/-- Run a sequence of `find_element_with_fallback` calls, threading the
finder state. -/
def runSearches : ElementFinder → List SearchInput → ElementFinder
  | ef, [] => ef
  | ef, inp :: rest =>
    runSearches (find_element_with_fallback ef inp.env inp.selectors inp.strategy).2 rest

/-- The JSON values `json.dump` produces for the statistics dict: naturals
for the counters, rationals for finite float timing values, the
`Infinity` token for the infinite sentinel, and objects with ordered keys. -/
inductive Json where
  | jnat (n : Nat)
  | jnum (q : ℚ)
  | jinf
  | jstr (s : String)
  | jobj (fields : List (String × Json))

/-- Serialize an attempts/successes pair. -/
def encodeCounterPair (v : StratStat) : Json :=
  .jobj [("attempts", .jnat v.attempts), ("successes", .jnat v.successes)]

/-- Deserialize an attempts/successes pair. -/
def decodeCounterPair : Json → Option StratStat
  | .jobj [("attempts", .jnat a), ("successes", .jnat s)] => some ⟨a, s⟩
  | _ => none

/-- Serialize the `selector_usage` dict, preserving insertion order. -/
def encodeUsage (l : List (String × StratStat)) : List (String × Json) :=
  l.map fun p => (p.1, encodeCounterPair p.2)

/-- Deserialize the `selector_usage` dict. -/
def decodeUsage : List (String × Json) → Option (List (String × StratStat))
  | [] => some []
  | (k, j) :: rest =>
    match decodeCounterPair j, decodeUsage rest with
    | some v, some l => some ((k, v) :: l)
    | _, _ => none

/-- Serialize `strategy_success_rate` under the strategy value strings, in
the enum declaration order used by `__init__`. -/
def encodeStrategyRates (r : StrategyRates) : Json :=
  .jobj
    [("presence_of_element_located", encodeCounterPair r.presence),
     ("visibility_of_element_located", encodeCounterPair r.visible),
     ("element_to_be_clickable", encodeCounterPair r.clickable),
     ("text_to_be_present_in_element", encodeCounterPair r.text_present),
     ("presence_of_element_attribute", encodeCounterPair r.attribute_present)]

/-- Deserialize `strategy_success_rate`. -/
def decodeStrategyRates : Json → Option StrategyRates
  | .jobj
      [("presence_of_element_located", j1),
       ("visibility_of_element_located", j2),
       ("element_to_be_clickable", j3),
       ("text_to_be_present_in_element", j4),
       ("presence_of_element_attribute", j5)] =>
    match decodeCounterPair j1, decodeCounterPair j2, decodeCounterPair j3,
        decodeCounterPair j4, decodeCounterPair j5 with
    | some a, some b, some c, some d, some e => some ⟨a, b, c, d, e⟩
    | _, _, _, _, _ => none
  | _ => none

/-- Serialize `retry_counts`. -/
def encodeRetryCounts (r : RetryCounts) : Json :=
  .jobj [("click", .jnat r.click), ("send_keys", .jnat r.send_keys),
         ("get_text", .jnat r.get_text)]

/-- Deserialize `retry_counts`. -/
def decodeRetryCounts : Json → Option RetryCounts
  | .jobj [("click", .jnat c), ("send_keys", .jnat s), ("get_text", .jnat g)] =>
    some ⟨c, s, g⟩
  | _ => none

/-- Serialize a possibly-infinite timing value. -/
def encodeTopQ : FloatTop → Json
  | .inf => .jinf
  | .val q => .jnum q

/-- Deserialize a possibly-infinite timing value. -/
def decodeTopQ : Json → Option FloatTop
  | .jinf => some .inf
  | .jnum q => some (.val q)
  | _ => none

/-- Serialize the `timing` dict. -/
def encodeTiming (t : Timing) : Json :=
  .jobj [("fastest_search", encodeTopQ t.fastest_search),
         ("slowest_search", .jnum t.slowest_search),
         ("average_search_time", .jnum t.average_search_time)]

/-- Deserialize the `timing` dict. -/
def decodeTiming : Json → Option Timing
  | .jobj [("fastest_search", jf), ("slowest_search", .jnum s),
           ("average_search_time", .jnum a)] =>
    match decodeTopQ jf with
    | some f => some ⟨f, s, a⟩
    | none => none
  | _ => none

/-- Serialize the full statistics dict in its `__init__` key order, as
`json.dump` writes it. -/
def encodeStats (st : Statistics) : Json :=
  .jobj
    [("total_searches", .jnat st.total_searches),
     ("successful_searches", .jnat st.successful_searches),
     ("failed_searches", .jnat st.failed_searches),
     ("selector_usage", .jobj (encodeUsage st.selector_usage)),
     ("strategy_success_rate", encodeStrategyRates st.strategy_success_rate),
     ("retry_counts", encodeRetryCounts st.retry_counts),
     ("timing", encodeTiming st.timing)]

/-- Deserialize the full statistics dict, as `json.load` reads back what
`json.dump` wrote. -/
def decodeStats : Json → Option Statistics
  | .jobj
      [("total_searches", .jnat tot),
       ("successful_searches", .jnat succ),
       ("failed_searches", .jnat fl),
       ("selector_usage", .jobj us),
       ("strategy_success_rate", strat),
       ("retry_counts", rc),
       ("timing", tm)] =>
    match decodeUsage us, decodeStrategyRates strat, decodeRetryCounts rc,
        decodeTiming tm with
    | some u, some sr, some r, some t => some ⟨tot, succ, fl, u, sr, r, t⟩
    | _, _, _, _ => none
  | _ => none

/-- `save_statistics`: dump the statistics dict to the file as JSON. -/
def save_statistics (ef : ElementFinder) : Json :=
  encodeStats ef.statistics

/-- `load_statistics`: replace the statistics with the parsed file content
and report `true`; on a parse failure keep the old statistics and report
`false`. -/
def load_statistics (ef : ElementFinder) (j : Json) : ElementFinder × Bool :=
  match decodeStats j with
  | some s => ({ ef with statistics := s }, true)
  | none => (ef, false)

/-- Python truthiness of an `os.getenv` result: absent and empty-string
values are falsy. -/
def envTruthy : Option String → Bool
  | none => false
  | some s => !s.isEmpty

/-- The headless-mode determination at the top of `create_profile_options`:
an explicit override wins; otherwise headless is forced when
`os.getenv('GITHUB_ACTIONS') or os.getenv('HEADLESS')` is truthy; otherwise
`global_settings.get('headless', False)` applies. -/
def resolve_headless (override : Option Bool)
    (github_actions headless_env : Option String)
    (global_headless : Option Bool) : Bool :=
  match override with
  | some h => h
  | none =>
    if envTruthy github_actions || envTruthy headless_env then true
    else global_headless.getD false

/-- The Chrome options record: the ordered argument list. -/
structure ChromeOptions where
  arguments : List String
deriving DecidableEq

/-- `create_profile_options`, restricted to the argument list it builds: the
headless flag is prepended when headless mode is resolved on, followed by the
per-service profile directory and the stealth and stability arguments. -/
def create_profile_options (service_name : String) (headless : Option Bool)
    (github_actions headless_env : Option String) (global_headless : Option Bool)
    (profiles_dir : String) (user_agent : String) : ChromeOptions :=
  let h := resolve_headless headless github_actions headless_env global_headless
  { arguments :=
      (if h then ["--headless=new"] else []) ++
      ["--user-data-dir=" ++ profiles_dir ++ "/" ++ service_name ++ "_profile",
       "--no-sandbox", "--disable-dev-shm-usage",
       "--disable-blink-features=AutomationControlled",
       "--user-agent=" ++ user_agent,
       "--disable-web-security", "--disable-features=VizDisplayCompositor",
       "--disable-background-timer-throttling",
       "--disable-backgrounding-occluded-windows",
       "--disable-renderer-backgrounding",
       "--memory-pressure-off", "--max_old_space_size=4096"] }

theorem lookupUsage_bumpAttempts_ne (k s : String) (hne : s ≠ k) :
    ∀ l : List (String × StratStat),
      lookupUsage (bumpAttempts l k) s = lookupUsage l s
  | [] => by simp [bumpAttempts, lookupUsage, Ne.symm hne]
  | (k0, v) :: rest => by
    by_cases hk : k0 = k
    · subst hk
      simp [bumpAttempts, lookupUsage, Ne.symm hne]
    · simp only [bumpAttempts, lookupUsage, if_neg hk]
      by_cases hs : k0 = s
      · simp [lookupUsage, hs]
      · simp [lookupUsage, hs, lookupUsage_bumpAttempts_ne k s hne rest]

theorem lookupUsage_bumpUsageSuccess_ne (k s : String) (hne : s ≠ k) :
    ∀ l : List (String × StratStat),
      lookupUsage (bumpUsageSuccess l k) s = lookupUsage l s
  | [] => by simp [bumpUsageSuccess, lookupUsage]
  | (k0, v) :: rest => by
    by_cases hk : k0 = k
    · subst hk
      simp [bumpUsageSuccess, lookupUsage, Ne.symm hne]
    · simp only [bumpUsageSuccess, lookupUsage, if_neg hk]
      by_cases hs : k0 = s
      · simp [lookupUsage, hs]
      · simp [lookupUsage, hs, lookupUsage_bumpUsageSuccess_ne k s hne rest]

theorem findLoop_ok_of_firstFound (env : String → SelOutcome) (strategy : FindStrategy)
    (allSel : List String) (e : Nat) (s : String) :
    ∀ (sel : List String) (st : Statistics), firstFound env sel = some (e, s) →
      (findLoop env strategy allSel sel st).1 = .ok (e, s)
  | [], _, h => by simp [firstFound] at h
  | x :: rest, st, h => by
    cases hx : env x with
    | found e' t =>
      rw [firstFound, hx] at h
      simp only [Option.some.injEq, Prod.mk.injEq] at h
      obtain ⟨he, hxs⟩ := h
      subst he
      subst hxs
      simp [findLoop, hx]
    | timeout =>
      rw [firstFound, hx] at h
      simpa [findLoop, hx] using
        findLoop_ok_of_firstFound env strategy allSel e s rest _ h
    | error =>
      rw [firstFound, hx] at h
      simpa [findLoop, hx] using
        findLoop_ok_of_firstFound env strategy allSel e s rest _ h

theorem findLoop_usage_untouched (env : String → SelOutcome) (strategy : FindStrategy)
    (allSel : List String) (s : String) :
    ∀ (sel : List String) (st : Statistics), s ∉ matchSegment env sel →
      lookupUsage (findLoop env strategy allSel sel st).2.selector_usage s =
        lookupUsage st.selector_usage s
  | [], st, _ => by simp [findLoop]
  | x :: rest, st, h => by
    rw [matchSegment] at h
    cases hx : env x with
    | found e' t =>
      rw [hx] at h
      simp only [isFound, if_true] at h
      have hxs : s ≠ x := by simpa using h
      simp [findLoop, hx, updateSuccess,
        lookupUsage_bumpUsageSuccess_ne x s hxs,
        lookupUsage_bumpAttempts_ne x s hxs]
    | timeout =>
      rw [hx] at h
      simp only [isFound, Bool.false_eq_true, if_false, List.mem_cons, not_or] at h
      have := findLoop_usage_untouched env strategy allSel s rest
        { st with selector_usage := bumpAttempts st.selector_usage x } h.2
      rw [findLoop, hx]
      simpa [lookupUsage_bumpAttempts_ne x s h.1] using this
    | error =>
      rw [hx] at h
      simp only [isFound, Bool.false_eq_true, if_false, List.mem_cons, not_or] at h
      have := findLoop_usage_untouched env strategy allSel s rest
        { st with selector_usage := bumpAttempts st.selector_usage x } h.2
      rw [findLoop, hx]
      simpa [lookupUsage_bumpAttempts_ne x s h.1] using this

/-- C1: for every non-empty selector list and wait strategy, if at least one
selector matches within its per-selector timeout, `find_element_with_fallback`
returns the element matched by the earliest such selector in list order
together with that selector string; timeouts and any other unexpected errors
on earlier selectors only skip to the next selector, and no selector after
the first match is ever tried (its usage statistics stay untouched). -/
theorem findOne_first_match_wins (ef : ElementFinder) (env : String → SelOutcome)
    (selectors : List String) (strategy : FindStrategy) (e : Nat) (s : String)
    (h : firstFound env selectors = some (e, s)) :
    (find_element_with_fallback ef env selectors strategy).1 = .ok (e, s) ∧
    ∀ sel, sel ∉ matchSegment env selectors →
      lookupUsage
          (find_element_with_fallback ef env selectors strategy).2.statistics.selector_usage
          sel =
        lookupUsage ef.statistics.selector_usage sel := by
  constructor
  · simpa [find_element_with_fallback] using
      findLoop_ok_of_firstFound env strategy selectors e s selectors _ h
  · intro sel hsel
    simpa [find_element_with_fallback] using
      findLoop_usage_untouched env strategy selectors sel selectors _ hsel

/-- Concrete environment for exercising the search: the first selector
errors, the second matches, the third would time out. -/
def env1 : String → SelOutcome := fun s =>
  if s = "a" then .error else if s = "b" then .found 5 1 else .timeout

theorem findOne_first_match_wins_witness :
    (find_element_with_fallback (ElementFinder.init 0 10) env1 ["a", "b", "c"]
        .presence).1 = .ok (5, "b") ∧
    lookupUsage
        (find_element_with_fallback (ElementFinder.init 0 10) env1 ["a", "b", "c"]
            .presence).2.statistics.selector_usage "c" =
      lookupUsage (ElementFinder.init 0 10).statistics.selector_usage "c" := by
  have h := findOne_first_match_wins (ElementFinder.init 0 10) env1 ["a", "b", "c"]
    .presence 5 "b" (by decide)
  exact ⟨h.1, h.2 "c" (by decide)⟩

theorem findLoop_all_fail (env : String → SelOutcome) (strategy : FindStrategy)
    (allSel : List String) :
    ∀ (sel : List String) (st : Statistics), (∀ s ∈ sel, isFound (env s) = false) →
      (findLoop env strategy allSel sel st).1 = .error ⟨allSel, "unknown"⟩ ∧
      (findLoop env strategy allSel sel st).2.failed_searches = st.failed_searches + 1 ∧
      (findLoop env strategy allSel sel st).2.successful_searches = st.successful_searches ∧
      (findLoop env strategy allSel sel st).2.total_searches = st.total_searches
  | [], st, _ => by simp [findLoop]
  | x :: rest, st, h => by
    have hx0 := h x (by simp)
    cases hx : env x with
    | found e t => rw [hx] at hx0; simp [isFound] at hx0
    | timeout =>
      have := findLoop_all_fail env strategy allSel rest
        { st with selector_usage := bumpAttempts st.selector_usage x }
        (fun s hs => h s (by simp [hs]))
      rw [findLoop, hx]
      simpa using this
    | error =>
      have := findLoop_all_fail env strategy allSel rest
        { st with selector_usage := bumpAttempts st.selector_usage x }
        (fun s hs => h s (by simp [hs]))
      rw [findLoop, hx]
      simpa using this

/-- C2: when no selector matches within its timeout,
`find_element_with_fallback` raises `SelectorNotFoundError` whose
`selectors_tried` field is exactly the input selector list — the engine's
sole hard failure mode — and `failed_searches` increments by exactly one. -/
theorem findOne_exhaustion_error (ef : ElementFinder) (env : String → SelOutcome)
    (selectors : List String) (strategy : FindStrategy)
    (h : ∀ s ∈ selectors, isFound (env s) = false) :
    (find_element_with_fallback ef env selectors strategy).1 =
      .error ⟨selectors, "unknown"⟩ ∧
    (find_element_with_fallback ef env selectors strategy).2.statistics.failed_searches =
      ef.statistics.failed_searches + 1 := by
  have hl := findLoop_all_fail env strategy selectors selectors
    { ef.statistics with
      total_searches := ef.statistics.total_searches + 1
      strategy_success_rate :=
        bumpStratAttempts ef.statistics.strategy_success_rate strategy } h
  exact ⟨by simpa [find_element_with_fallback] using hl.1,
    by simpa [find_element_with_fallback] using hl.2.1⟩

theorem findOne_exhaustion_error_witness :
    (find_element_with_fallback (ElementFinder.init 0 10) env1 ["a", "c"]
        .presence).1 = .error ⟨["a", "c"], "unknown"⟩ ∧
    (find_element_with_fallback (ElementFinder.init 0 10) env1 ["a", "c"]
        .presence).2.statistics.failed_searches =
      (ElementFinder.init 0 10).statistics.failed_searches + 1 :=
  findOne_exhaustion_error (ElementFinder.init 0 10) env1 ["a", "c"] .presence
    (by decide)

theorem findLoop_counts (env : String → SelOutcome) (strategy : FindStrategy)
    (allSel : List String) :
    ∀ (sel : List String) (st : Statistics),
      (findLoop env strategy allSel sel st).2.total_searches = st.total_searches ∧
      (∀ v, (findLoop env strategy allSel sel st).1 = .ok v →
        (findLoop env strategy allSel sel st).2.successful_searches =
          st.successful_searches + 1 ∧
        (findLoop env strategy allSel sel st).2.failed_searches = st.failed_searches) ∧
      (∀ err, (findLoop env strategy allSel sel st).1 = .error err →
        (findLoop env strategy allSel sel st).2.failed_searches = st.failed_searches + 1 ∧
        (findLoop env strategy allSel sel st).2.successful_searches =
          st.successful_searches)
  | [], st => by simp [findLoop]
  | x :: rest, st => by
    cases hx : env x with
    | found e t =>
      rw [findLoop, hx]
      simp [updateSuccess]
    | timeout =>
      have := findLoop_counts env strategy allSel rest
        { st with selector_usage := bumpAttempts st.selector_usage x }
      rw [findLoop, hx]
      simpa using this
    | error =>
      have := findLoop_counts env strategy allSel rest
        { st with selector_usage := bumpAttempts st.selector_usage x }
      rw [findLoop, hx]
      simpa using this

theorem find_counts (ef : ElementFinder) (env : String → SelOutcome)
    (selectors : List String) (strategy : FindStrategy) :
    (find_element_with_fallback ef env selectors strategy).2.statistics.total_searches =
      ef.statistics.total_searches + 1 ∧
    (∀ v, (find_element_with_fallback ef env selectors strategy).1 = .ok v →
      (find_element_with_fallback ef env selectors strategy).2.statistics.successful_searches =
        ef.statistics.successful_searches + 1 ∧
      (find_element_with_fallback ef env selectors strategy).2.statistics.failed_searches =
        ef.statistics.failed_searches) ∧
    (∀ err, (find_element_with_fallback ef env selectors strategy).1 = .error err →
      (find_element_with_fallback ef env selectors strategy).2.statistics.failed_searches =
        ef.statistics.failed_searches + 1 ∧
      (find_element_with_fallback ef env selectors strategy).2.statistics.successful_searches =
        ef.statistics.successful_searches) := by
  have hl := findLoop_counts env strategy selectors selectors
    { ef.statistics with
      total_searches := ef.statistics.total_searches + 1
      strategy_success_rate :=
        bumpStratAttempts ef.statistics.strategy_success_rate strategy }
  refine ⟨by simpa [find_element_with_fallback] using hl.1, ?_, ?_⟩
  · intro v hv
    have := hl.2.1 v (by simpa [find_element_with_fallback] using hv)
    simpa [find_element_with_fallback] using this
  · intro err herr
    have := hl.2.2 err (by simpa [find_element_with_fallback] using herr)
    simpa [find_element_with_fallback] using this

theorem runSearches_counts :
    ∀ (L : List SearchInput) (ef : ElementFinder),
      (runSearches ef L).statistics.total_searches =
        ef.statistics.total_searches + L.length ∧
      (runSearches ef L).statistics.successful_searches +
          (runSearches ef L).statistics.failed_searches =
        ef.statistics.successful_searches + ef.statistics.failed_searches + L.length
  | [], ef => by simp [runSearches]
  | inp :: rest, ef => by
    obtain ⟨ht, hok, herr⟩ := find_counts ef inp.env inp.selectors inp.strategy
    obtain ⟨hrt, hrs⟩ := runSearches_counts rest
      (find_element_with_fallback ef inp.env inp.selectors inp.strategy).2
    rw [runSearches]
    cases hq : (find_element_with_fallback ef inp.env inp.selectors inp.strategy).1 with
    | ok v =>
      obtain ⟨h1, h2⟩ := hok v hq
      simp only [List.length_cons]
      omega
    | error err =>
      obtain ⟨h1, h2⟩ := herr err hq
      simp only [List.length_cons]
      omega

/-- C3: starting from a freshly constructed ElementFinder, after any sequence
of N `find_element_with_fallback` calls the counters satisfy
successful + failed = total = N; moreover every single call increments
`total_searches` exactly once and exactly one of `successful_searches` or
`failed_searches`, matching the outcome returned to the caller. -/
theorem findOne_statistics_invariant (d t : Nat) (L : List SearchInput) :
    (runSearches (ElementFinder.init d t) L).statistics.successful_searches +
        (runSearches (ElementFinder.init d t) L).statistics.failed_searches =
      (runSearches (ElementFinder.init d t) L).statistics.total_searches ∧
    (runSearches (ElementFinder.init d t) L).statistics.total_searches = L.length ∧
    ∀ (ef : ElementFinder) (inp : SearchInput),
      (find_element_with_fallback ef inp.env inp.selectors inp.strategy).2.statistics.total_searches =
        ef.statistics.total_searches + 1 ∧
      (∀ v, (find_element_with_fallback ef inp.env inp.selectors inp.strategy).1 = .ok v →
        (find_element_with_fallback ef inp.env inp.selectors inp.strategy).2.statistics.successful_searches =
          ef.statistics.successful_searches + 1 ∧
        (find_element_with_fallback ef inp.env inp.selectors inp.strategy).2.statistics.failed_searches =
          ef.statistics.failed_searches) ∧
      (∀ err, (find_element_with_fallback ef inp.env inp.selectors inp.strategy).1 = .error err →
        (find_element_with_fallback ef inp.env inp.selectors inp.strategy).2.statistics.failed_searches =
          ef.statistics.failed_searches + 1 ∧
        (find_element_with_fallback ef inp.env inp.selectors inp.strategy).2.statistics.successful_searches =
          ef.statistics.successful_searches) := by
  obtain ⟨hrt, hrs⟩ := runSearches_counts L (ElementFinder.init d t)
  refine ⟨?_, ?_, fun ef inp => find_counts ef inp.env inp.selectors inp.strategy⟩
  · rw [hrs, hrt]
    simp [ElementFinder.init, initStatistics]
  · rw [hrt]
    simp [ElementFinder.init, initStatistics]

theorem findOne_statistics_invariant_witness :
    (runSearches (ElementFinder.init 0 10)
          [⟨env1, ["a", "b"], .presence⟩, ⟨env1, ["q"], .presence⟩]).statistics.successful_searches +
        (runSearches (ElementFinder.init 0 10)
          [⟨env1, ["a", "b"], .presence⟩, ⟨env1, ["q"], .presence⟩]).statistics.failed_searches =
      (runSearches (ElementFinder.init 0 10)
          [⟨env1, ["a", "b"], .presence⟩, ⟨env1, ["q"], .presence⟩]).statistics.total_searches ∧
    (runSearches (ElementFinder.init 0 10)
          [⟨env1, ["a", "b"], .presence⟩, ⟨env1, ["q"], .presence⟩]).statistics.total_searches = 2 ∧
    (find_element_with_fallback (ElementFinder.init 1 5) env1 ["a", "b"]
        .presence).2.statistics.total_searches =
      (ElementFinder.init 1 5).statistics.total_searches + 1 ∧
    (find_element_with_fallback (ElementFinder.init 1 5) env1 ["a", "b"]
        .presence).2.statistics.successful_searches =
      (ElementFinder.init 1 5).statistics.successful_searches + 1 := by
  have h := findOne_statistics_invariant 0 10
    [⟨env1, ["a", "b"], .presence⟩, ⟨env1, ["q"], .presence⟩]
  have h3 := h.2.2 (ElementFinder.init 1 5) ⟨env1, ["a", "b"], .presence⟩
  exact ⟨h.1, h.2.1, h3.1, (h3.2.1 (5, "b") rfl).1⟩

theorem findLoop_retry_counts (env : String → SelOutcome) (strategy : FindStrategy)
    (allSel : List String) :
    ∀ (sel : List String) (st : Statistics),
      (findLoop env strategy allSel sel st).2.retry_counts = st.retry_counts
  | [], st => by simp [findLoop]
  | x :: rest, st => by
    cases hx : env x with
    | found e t => rw [findLoop, hx]; simp [updateSuccess]
    | timeout =>
      rw [findLoop, hx]
      simpa using findLoop_retry_counts env strategy allSel rest
        { st with selector_usage := bumpAttempts st.selector_usage x }
    | error =>
      rw [findLoop, hx]
      simpa using findLoop_retry_counts env strategy allSel rest
        { st with selector_usage := bumpAttempts st.selector_usage x }

theorem find_retry_counts (ef : ElementFinder) (env : String → SelOutcome)
    (selectors : List String) (strategy : FindStrategy) :
    (find_element_with_fallback ef env selectors strategy).2.statistics.retry_counts =
      ef.statistics.retry_counts := by
  simpa [find_element_with_fallback] using
    findLoop_retry_counts env strategy selectors selectors
      { ef.statistics with
        total_searches := ef.statistics.total_searches + 1
        strategy_success_rate :=
          bumpStratAttempts ef.statistics.strategy_success_rate strategy }

theorem resolveElement_retry_counts (ef : ElementFinder) (env : String → SelOutcome)
    (t : Target) :
    (resolveElement ef env t).2.statistics.retry_counts = ef.statistics.retry_counts := by
  cases t with
  | element e => simp [resolveElement]
  | selectors ss =>
    have := find_retry_counts ef env ss .presence
    rw [resolveElement]
    cases hq : find_element_with_fallback ef env ss .presence with
    | mk r ef' =>
      rw [hq] at this
      cases r <;> simpa using this

theorem safe_click_loop_element_ok (env : String → SelOutcome) (e : Nat)
    (sc : Nat → ClickAttempt) (R : Nat) :
    ∀ (n i : Nat) (ef : ElementFinder),
      exOk (safe_click_loop env (Target.element e) sc R n i ef).1 = true
  | 0, _, ef => by simp [safe_click_loop, exOk]
  | n + 1, i, ef => by
    rw [safe_click_loop]
    cases hx : sc i with
    | success => simp [exOk]
    | stale =>
      simpa [resolveElement] using safe_click_loop_element_ok env e sc R n (i + 1) ef
    | notInteractable =>
      simpa using safe_click_loop_element_ok env e sc R n (i + 1) ef
    | failOther =>
      simpa using safe_click_loop_element_ok env e sc R n (i + 1) ef

theorem safe_click_element_ok (ef : ElementFinder) (env : String → SelOutcome)
    (e : Nat) (R : Nat) (sc : Nat → ClickAttempt) :
    exOk (safe_click ef env (Target.element e) R sc).1 = true := by
  simpa [safe_click, resolveElement] using
    safe_click_loop_element_ok env e sc R (R + 1) 0 ef

theorem safe_send_keys_loop_element_ok (env : String → SelOutcome) (e : Nat)
    (isc : Nat → Nat → ClickAttempt) (ssc : Nat → SendAttempt) (R : Nat) :
    ∀ (n i : Nat) (ef : ElementFinder),
      exOk (safe_send_keys_loop env (Target.element e) isc ssc R e n i ef).1 = true
  | 0, _, ef => by simp [safe_send_keys_loop, exOk]
  | n + 1, i, ef => by
    rw [safe_send_keys_loop]
    have hco := safe_click_element_ok ef env e 3 (isc i)
    rcases hc : safe_click ef env (Target.element e) 3 (isc i) with ⟨r1, ef', cnt⟩
    rw [hc] at hco
    cases r1 with
    | error err => simp [exOk] at hco
    | ok b =>
      cases b with
      | false => simpa using safe_send_keys_loop_element_ok env e isc ssc R n (i + 1) ef'
      | true =>
        cases hs : ssc i with
        | success => simp [exOk]
        | stale =>
          simpa [resolveElement] using
            safe_send_keys_loop_element_ok env e isc ssc R n (i + 1) ef'
        | failOther =>
          simpa using safe_send_keys_loop_element_ok env e isc ssc R n (i + 1) ef'

theorem safe_send_keys_element_ok (ef : ElementFinder) (env : String → SelOutcome)
    (e : Nat) (text : String) (R : Nat)
    (isc : Nat → Nat → ClickAttempt) (ssc : Nat → SendAttempt) :
    exOk (safe_send_keys ef env (Target.element e) text R isc ssc).1 = true := by
  simpa [safe_send_keys, resolveElement] using
    safe_send_keys_loop_element_ok env e isc ssc R (R + 1) 0 ef

theorem safe_get_text_loop_element_ok (env : String → SelOutcome) (e : Nat)
    (tsc : Nat → TextAttempt) (R : Nat) :
    ∀ (n i : Nat) (ef : ElementFinder),
      exOk (safe_get_text_loop env (Target.element e) tsc R n i ef).1 = true
  | 0, _, ef => by simp [safe_get_text_loop, exOk]
  | n + 1, i, ef => by
    rw [safe_get_text_loop]
    cases hx : tsc i with
    | gotText s => simp [exOk]
    | empty => simpa using safe_get_text_loop_element_ok env e tsc R n (i + 1) ef
    | stale =>
      simpa [resolveElement] using safe_get_text_loop_element_ok env e tsc R n (i + 1) ef
    | failOther => simpa using safe_get_text_loop_element_ok env e tsc R n (i + 1) ef

theorem safe_get_text_element_ok (ef : ElementFinder) (env : String → SelOutcome)
    (e : Nat) (R : Nat) (tsc : Nat → TextAttempt) :
    exOk (safe_get_text ef env (Target.element e) R tsc).1 = true := by
  simpa [safe_get_text, resolveElement] using
    safe_get_text_loop_element_ok env e tsc R (R + 1) 0 ef

theorem safe_click_loop_never_success (env : String → SelOutcome) (e : Nat)
    (sc : Nat → ClickAttempt) (R : Nat) (hsc : ∀ j, clickIsSuccess (sc j) = false) :
    ∀ (n i : Nat) (ef : ElementFinder),
      safe_click_loop env (Target.element e) sc R n i ef =
        (.ok false, addClickRetries ef R, i + n)
  | 0, i, ef => by simp [safe_click_loop]
  | n + 1, i, ef => by
    rw [safe_click_loop]
    cases hx : sc i with
    | success =>
      have hi := hsc i
      rw [hx] at hi
      simp [clickIsSuccess] at hi
    | stale =>
      have h1 := safe_click_loop_never_success env e sc R hsc n (i + 1) ef
      have h2 : i + 1 + n = i + (n + 1) := by omega
      rw [h2] at h1
      exact h1
    | notInteractable =>
      have h1 := safe_click_loop_never_success env e sc R hsc n (i + 1) ef
      have h2 : i + 1 + n = i + (n + 1) := by omega
      rw [h2] at h1
      exact h1
    | failOther =>
      have h1 := safe_click_loop_never_success env e sc R hsc n (i + 1) ef
      have h2 : i + 1 + n = i + (n + 1) := by omega
      rw [h2] at h1
      exact h1

theorem safe_send_keys_loop_never_success (env : String → SelOutcome) (e : Nat)
    (isc : Nat → Nat → ClickAttempt) (ssc : Nat → SendAttempt) (R : Nat)
    (hssc : ∀ j, sendIsSuccess (ssc j) = false) :
    ∀ (n i : Nat) (ef : ElementFinder),
      (safe_send_keys_loop env (Target.element e) isc ssc R e n i ef).1 = .ok false ∧
      (safe_send_keys_loop env (Target.element e) isc ssc R e n i ef).2.2 = i + n
  | 0, i, ef => by simp [safe_send_keys_loop]
  | n + 1, i, ef => by
    rw [safe_send_keys_loop]
    have hco := safe_click_element_ok ef env e 3 (isc i)
    rcases hc : safe_click ef env (Target.element e) 3 (isc i) with ⟨r1, ef', cnt⟩
    rw [hc] at hco
    cases r1 with
    | error err => simp [exOk] at hco
    | ok b =>
      cases b with
      | false =>
        have h1 := safe_send_keys_loop_never_success env e isc ssc R hssc n (i + 1) ef'
        have h2 : i + 1 + n = i + (n + 1) := by omega
        rw [h2] at h1
        exact h1
      | true =>
        cases hs : ssc i with
        | success =>
          have hi := hssc i
          rw [hs] at hi
          simp [sendIsSuccess] at hi
        | stale =>
          have h1 := safe_send_keys_loop_never_success env e isc ssc R hssc n (i + 1) ef'
          have h2 : i + 1 + n = i + (n + 1) := by omega
          rw [h2] at h1
          exact h1
        | failOther =>
          have h1 := safe_send_keys_loop_never_success env e isc ssc R hssc n (i + 1) ef'
          have h2 : i + 1 + n = i + (n + 1) := by omega
          rw [h2] at h1
          exact h1

theorem safe_get_text_loop_never_success (env : String → SelOutcome) (e : Nat)
    (tsc : Nat → TextAttempt) (R : Nat)
    (htsc : ∀ j, textGotValue (tsc j) = false) :
    ∀ (n i : Nat) (ef : ElementFinder),
      safe_get_text_loop env (Target.element e) tsc R n i ef =
        (.ok none, addGetTextRetries ef R, i + n)
  | 0, i, ef => by simp [safe_get_text_loop]
  | n + 1, i, ef => by
    rw [safe_get_text_loop]
    cases hx : tsc i with
    | gotText s =>
      have hi := htsc i
      rw [hx] at hi
      simp [textGotValue] at hi
    | empty =>
      have h1 := safe_get_text_loop_never_success env e tsc R htsc n (i + 1) ef
      have h2 : i + 1 + n = i + (n + 1) := by omega
      rw [h2] at h1
      exact h1
    | stale =>
      have h1 := safe_get_text_loop_never_success env e tsc R htsc n (i + 1) ef
      have h2 : i + 1 + n = i + (n + 1) := by omega
      rw [h2] at h1
      exact h1
    | failOther =>
      have h1 := safe_get_text_loop_never_success env e tsc R htsc n (i + 1) ef
      have h2 : i + 1 + n = i + (n + 1) := by omega
      rw [h2] at h1
      exact h1

/-- C4: on a target that never stabilizes (every attempt fails), `safe_click`,
`safe_send_keys` and `safe_get_text` with retry parameter R make exactly R+1
attempts, then return `false` (click, send-keys) or the absent value
(get-text): they terminate, never raise on retry exhaustion, and never exceed
R+1 attempts. -/
theorem safe_ops_retry_exhaustion (ef : ElementFinder) (env : String → SelOutcome)
    (e : Nat) (R : Nat) (text : String)
    (sc : Nat → ClickAttempt) (hsc : ∀ j, clickIsSuccess (sc j) = false)
    (isc : Nat → Nat → ClickAttempt)
    (ssc : Nat → SendAttempt) (hssc : ∀ j, sendIsSuccess (ssc j) = false)
    (tsc : Nat → TextAttempt) (htsc : ∀ j, textGotValue (tsc j) = false) :
    (safe_click ef env (Target.element e) R sc).1 = .ok false ∧
    (safe_click ef env (Target.element e) R sc).2.2 = R + 1 ∧
    (safe_send_keys ef env (Target.element e) text R isc ssc).1 = .ok false ∧
    (safe_send_keys ef env (Target.element e) text R isc ssc).2.2 = R + 1 ∧
    (safe_get_text ef env (Target.element e) R tsc).1 = .ok none ∧
    (safe_get_text ef env (Target.element e) R tsc).2.2 = R + 1 := by
  have hcl := safe_click_loop_never_success env e sc R hsc (R + 1) 0 ef
  have hsk := safe_send_keys_loop_never_success env e isc ssc R hssc (R + 1) 0 ef
  have hgt := safe_get_text_loop_never_success env e tsc R htsc (R + 1) 0 ef
  refine ⟨?_, ?_, ?_, ?_, ?_, ?_⟩
  · simp [safe_click, resolveElement, hcl]
  · simp [safe_click, resolveElement, hcl]
  · simpa [safe_send_keys, resolveElement] using hsk.1
  · simpa [safe_send_keys, resolveElement] using hsk.2
  · simp [safe_get_text, resolveElement, hgt]
  · simp [safe_get_text, resolveElement, hgt]

theorem safe_ops_retry_exhaustion_witness :
    (safe_click (ElementFinder.init 0 10) env1 (Target.element 1) 2
        (fun _ => .failOther)).1 = .ok false ∧
    (safe_click (ElementFinder.init 0 10) env1 (Target.element 1) 2
        (fun _ => .failOther)).2.2 = 3 ∧
    (safe_send_keys (ElementFinder.init 0 10) env1 (Target.element 1) "hello" 2
        (fun _ _ => .failOther) (fun _ => .failOther)).1 = .ok false ∧
    (safe_send_keys (ElementFinder.init 0 10) env1 (Target.element 1) "hello" 2
        (fun _ _ => .failOther) (fun _ => .failOther)).2.2 = 3 ∧
    (safe_get_text (ElementFinder.init 0 10) env1 (Target.element 1) 2
        (fun _ => .failOther)).1 = .ok none ∧
    (safe_get_text (ElementFinder.init 0 10) env1 (Target.element 1) 2
        (fun _ => .failOther)).2.2 = 3 :=
  safe_ops_retry_exhaustion (ElementFinder.init 0 10) env1 1 2 "hello"
    (fun _ => .failOther) (fun _ => rfl)
    (fun _ _ => .failOther)
    (fun _ => .failOther) (fun _ => rfl)
    (fun _ => .failOther) (fun _ => rfl)

theorem find_fail_error (ef : ElementFinder) (env : String → SelOutcome)
    (ss : List String) (h : ∀ s ∈ ss, isFound (env s) = false) :
    (find_element_with_fallback ef env ss .presence).1 = .error ⟨ss, "unknown"⟩ := by
  simpa [find_element_with_fallback] using
    (findLoop_all_fail env .presence ss ss
      { ef.statistics with
        total_searches := ef.statistics.total_searches + 1
        strategy_success_rate :=
          bumpStratAttempts ef.statistics.strategy_success_rate .presence } h).1

theorem resolveElement_fail (ef : ElementFinder) (env : String → SelOutcome)
    (ss : List String) (h : ∀ s ∈ ss, isFound (env s) = false) :
    (resolveElement ef env (Target.selectors ss)).1 = .error ⟨ss, "unknown"⟩ := by
  rw [resolveElement]
  have hf := find_fail_error ef env ss h
  rcases hq : find_element_with_fallback ef env ss .presence with ⟨r, ef'⟩
  rw [hq] at hf
  cases r with
  | ok p => simp at hf
  | error err => simpa using hf

theorem safe_click_selectors_fail (ef : ElementFinder) (env : String → SelOutcome)
    (ss : List String) (R : Nat) (sc : Nat → ClickAttempt)
    (h : ∀ s ∈ ss, isFound (env s) = false) :
    (safe_click ef env (Target.selectors ss) R sc).1 = .error ⟨ss, "unknown"⟩ := by
  have hr := resolveElement_fail ef env ss h
  simp only [safe_click]
  rcases hq : resolveElement ef env (Target.selectors ss) with ⟨r, ef'⟩
  rw [hq] at hr
  cases r with
  | ok p => simp at hr
  | error err => simpa using hr

theorem safe_send_keys_selectors_fail (ef : ElementFinder) (env : String → SelOutcome)
    (ss : List String) (text : String) (R : Nat)
    (isc : Nat → Nat → ClickAttempt) (ssc : Nat → SendAttempt)
    (h : ∀ s ∈ ss, isFound (env s) = false) :
    (safe_send_keys ef env (Target.selectors ss) text R isc ssc).1 =
      .error ⟨ss, "unknown"⟩ := by
  have hr := resolveElement_fail ef env ss h
  simp only [safe_send_keys]
  rcases hq : resolveElement ef env (Target.selectors ss) with ⟨r, ef'⟩
  rw [hq] at hr
  cases r with
  | ok p => simp at hr
  | error err => simpa using hr

theorem safe_get_text_selectors_fail (ef : ElementFinder) (env : String → SelOutcome)
    (ss : List String) (R : Nat) (tsc : Nat → TextAttempt)
    (h : ∀ s ∈ ss, isFound (env s) = false) :
    (safe_get_text ef env (Target.selectors ss) R tsc).1 = .error ⟨ss, "unknown"⟩ := by
  have hr := resolveElement_fail ef env ss h
  simp only [safe_get_text]
  rcases hq : resolveElement ef env (Target.selectors ss) with ⟨r, ef'⟩
  rw [hq] at hr
  cases r with
  | ok p => simp at hr
  | error err => simpa using hr

/-- C6: when a safe operation is given a selector list and no selector
matches, the `SelectorNotFoundError` of the required resolve step propagates
to the caller (carrying that selector list) instead of becoming a
`false`/absent return; with a pre-resolved element, interaction-layer
failures (stale references, not-interactable, retry exhaustion) stay local
and the operations always return a value rather than raising. -/
theorem resolve_failure_propagation (ef : ElementFinder) (env : String → SelOutcome)
    (ss : List String) (h : ∀ s ∈ ss, isFound (env s) = false)
    (e R : Nat) (text : String) (sc : Nat → ClickAttempt)
    (isc : Nat → Nat → ClickAttempt) (ssc : Nat → SendAttempt)
    (tsc : Nat → TextAttempt) :
    (safe_click ef env (Target.selectors ss) R sc).1 = .error ⟨ss, "unknown"⟩ ∧
    (safe_send_keys ef env (Target.selectors ss) text R isc ssc).1 =
      .error ⟨ss, "unknown"⟩ ∧
    (safe_get_text ef env (Target.selectors ss) R tsc).1 = .error ⟨ss, "unknown"⟩ ∧
    exOk (safe_click ef env (Target.element e) R sc).1 = true ∧
    exOk (safe_send_keys ef env (Target.element e) text R isc ssc).1 = true ∧
    exOk (safe_get_text ef env (Target.element e) R tsc).1 = true :=
  ⟨safe_click_selectors_fail ef env ss R sc h,
   safe_send_keys_selectors_fail ef env ss text R isc ssc h,
   safe_get_text_selectors_fail ef env ss R tsc h,
   safe_click_element_ok ef env e R sc,
   safe_send_keys_element_ok ef env e text R isc ssc,
   safe_get_text_element_ok ef env e R tsc⟩

theorem resolve_failure_propagation_witness :
    (safe_click (ElementFinder.init 0 10) env1 (Target.selectors ["x", "y"]) 3
        (fun _ => .stale)).1 = .error ⟨["x", "y"], "unknown"⟩ ∧
    (safe_send_keys (ElementFinder.init 0 10) env1 (Target.selectors ["x", "y"]) "t" 3
        (fun _ _ => .success) (fun _ => .stale)).1 = .error ⟨["x", "y"], "unknown"⟩ ∧
    (safe_get_text (ElementFinder.init 0 10) env1 (Target.selectors ["x", "y"]) 3
        (fun _ => .stale)).1 = .error ⟨["x", "y"], "unknown"⟩ ∧
    exOk (safe_click (ElementFinder.init 0 10) env1 (Target.element 2) 3
        (fun _ => .stale)).1 = true ∧
    exOk (safe_send_keys (ElementFinder.init 0 10) env1 (Target.element 2) "t" 3
        (fun _ _ => .success) (fun _ => .stale)).1 = true ∧
    exOk (safe_get_text (ElementFinder.init 0 10) env1 (Target.element 2) 3
        (fun _ => .stale)).1 = true :=
  resolve_failure_propagation (ElementFinder.init 0 10) env1 ["x", "y"] (by decide)
    2 3 "t" (fun _ => .stale) (fun _ _ => .success) (fun _ => .stale) (fun _ => .stale)

theorem safe_click_loop_retry (env : String → SelOutcome) (target : Target)
    (sc : Nat → ClickAttempt) (R : Nat) :
    ∀ (n i : Nat) (ef : ElementFinder),
      ((safe_click_loop env target sc R n i ef).1 = .ok false →
        (safe_click_loop env target sc R n i ef).2.1.statistics.retry_counts.click =
          ef.statistics.retry_counts.click + R) ∧
      ((safe_click_loop env target sc R n i ef).1 = .ok true →
        (safe_click_loop env target sc R n i ef).2.1.statistics.retry_counts.click =
          ef.statistics.retry_counts.click) ∧
      (safe_click_loop env target sc R n i ef).2.1.statistics.retry_counts.send_keys =
        ef.statistics.retry_counts.send_keys ∧
      (safe_click_loop env target sc R n i ef).2.1.statistics.retry_counts.get_text =
        ef.statistics.retry_counts.get_text
  | 0, i, ef => by simp [safe_click_loop, addClickRetries]
  | n + 1, i, ef => by
    rw [safe_click_loop]
    cases hx : sc i with
    | success => simp
    | stale =>
      dsimp only
      have hres := resolveElement_retry_counts ef env target
      rcases hq : resolveElement ef env target with ⟨r, ef'⟩
      rw [hq] at hres
      have h' : ef'.statistics.retry_counts = ef.statistics.retry_counts := hres
      cases r with
      | ok p =>
        have ih := safe_click_loop_retry env target sc R n (i + 1) ef'
        rw [h'] at ih
        exact ih
      | error err =>
        refine ⟨by simp, by simp, ?_, ?_⟩
        · show ef'.statistics.retry_counts.send_keys = ef.statistics.retry_counts.send_keys
          rw [h']
        · show ef'.statistics.retry_counts.get_text = ef.statistics.retry_counts.get_text
          rw [h']
    | notInteractable => exact safe_click_loop_retry env target sc R n (i + 1) ef
    | failOther => exact safe_click_loop_retry env target sc R n (i + 1) ef

theorem safe_click_retry (ef : ElementFinder) (env : String → SelOutcome)
    (target : Target) (R : Nat) (sc : Nat → ClickAttempt) :
    ((safe_click ef env target R sc).1 = .ok false →
      (safe_click ef env target R sc).2.1.statistics.retry_counts.click =
        ef.statistics.retry_counts.click + R) ∧
    ((safe_click ef env target R sc).1 = .ok true →
      (safe_click ef env target R sc).2.1.statistics.retry_counts.click =
        ef.statistics.retry_counts.click) ∧
    (safe_click ef env target R sc).2.1.statistics.retry_counts.send_keys =
      ef.statistics.retry_counts.send_keys ∧
    (safe_click ef env target R sc).2.1.statistics.retry_counts.get_text =
      ef.statistics.retry_counts.get_text := by
  have hres := resolveElement_retry_counts ef env target
  simp only [safe_click]
  rcases hq : resolveElement ef env target with ⟨r, ef'⟩
  rw [hq] at hres
  have h' : ef'.statistics.retry_counts = ef.statistics.retry_counts := hres
  cases r with
  | ok p =>
    have ih := safe_click_loop_retry env target sc R (R + 1) 0 ef'
    rw [h'] at ih
    exact ih
  | error err =>
    refine ⟨by simp, by simp, ?_, ?_⟩
    · show ef'.statistics.retry_counts.send_keys = ef.statistics.retry_counts.send_keys
      rw [h']
    · show ef'.statistics.retry_counts.get_text = ef.statistics.retry_counts.get_text
      rw [h']

theorem safe_send_keys_loop_retry (env : String → SelOutcome) (target : Target)
    (isc : Nat → Nat → ClickAttempt) (ssc : Nat → SendAttempt) (R e : Nat) :
    ∀ (n i : Nat) (ef : ElementFinder),
      ((safe_send_keys_loop env target isc ssc R e n i ef).1 = .ok false →
        (safe_send_keys_loop env target isc ssc R e n i ef).2.1.statistics.retry_counts.send_keys =
          ef.statistics.retry_counts.send_keys + R) ∧
      ((safe_send_keys_loop env target isc ssc R e n i ef).1 = .ok true →
        (safe_send_keys_loop env target isc ssc R e n i ef).2.1.statistics.retry_counts.send_keys =
          ef.statistics.retry_counts.send_keys)
  | 0, i, ef => by simp [safe_send_keys_loop, addSendKeysRetries]
  | n + 1, i, ef => by
    rw [safe_send_keys_loop]
    have hcp := (safe_click_retry ef env (Target.element e) 3 (isc i)).2.2.1
    rcases hc : safe_click ef env (Target.element e) 3 (isc i) with ⟨r1, ef', cnt⟩
    rw [hc] at hcp
    have hcp' : ef'.statistics.retry_counts.send_keys =
        ef.statistics.retry_counts.send_keys := hcp
    cases r1 with
    | error err => exact ⟨by simp, by simp⟩
    | ok b =>
      cases b with
      | false =>
        have ih := safe_send_keys_loop_retry env target isc ssc R e n (i + 1) ef'
        rw [hcp'] at ih
        exact ih
      | true =>
        cases hs : ssc i with
        | success =>
          refine ⟨by simp, fun _ => ?_⟩
          show ef'.statistics.retry_counts.send_keys = ef.statistics.retry_counts.send_keys
          exact hcp'
        | stale =>
          dsimp only
          have hres := resolveElement_retry_counts ef' env target
          rcases hq : resolveElement ef' env target with ⟨r2, ef''⟩
          rw [hq] at hres
          have h' : ef''.statistics.retry_counts = ef'.statistics.retry_counts := hres
          cases r2 with
          | ok p =>
            have ih := safe_send_keys_loop_retry env target isc ssc R e n (i + 1) ef''
            have h2 : ef''.statistics.retry_counts.send_keys =
                ef.statistics.retry_counts.send_keys := by rw [h', hcp']
            rw [h2] at ih
            exact ih
          | error err => exact ⟨by simp, by simp⟩
        | failOther =>
          have ih := safe_send_keys_loop_retry env target isc ssc R e n (i + 1) ef'
          rw [hcp'] at ih
          exact ih

theorem safe_send_keys_retry (ef : ElementFinder) (env : String → SelOutcome)
    (target : Target) (text : String) (R : Nat)
    (isc : Nat → Nat → ClickAttempt) (ssc : Nat → SendAttempt) :
    ((safe_send_keys ef env target text R isc ssc).1 = .ok false →
      (safe_send_keys ef env target text R isc ssc).2.1.statistics.retry_counts.send_keys =
        ef.statistics.retry_counts.send_keys + R) ∧
    ((safe_send_keys ef env target text R isc ssc).1 = .ok true →
      (safe_send_keys ef env target text R isc ssc).2.1.statistics.retry_counts.send_keys =
        ef.statistics.retry_counts.send_keys) := by
  have hres := resolveElement_retry_counts ef env target
  simp only [safe_send_keys]
  rcases hq : resolveElement ef env target with ⟨r, ef'⟩
  rw [hq] at hres
  cases r with
  | ok e =>
    have ih := safe_send_keys_loop_retry env target isc ssc R e (R + 1) 0 ef'
    rw [show ef'.statistics.retry_counts = ef.statistics.retry_counts from hres] at ih
    exact ih
  | error err => exact ⟨by simp, by simp⟩

theorem safe_get_text_loop_retry (env : String → SelOutcome) (target : Target)
    (tsc : Nat → TextAttempt) (R : Nat) :
    ∀ (n i : Nat) (ef : ElementFinder),
      ((safe_get_text_loop env target tsc R n i ef).1 = .ok none →
        (safe_get_text_loop env target tsc R n i ef).2.1.statistics.retry_counts.get_text =
          ef.statistics.retry_counts.get_text + R) ∧
      (∀ s, (safe_get_text_loop env target tsc R n i ef).1 = .ok (some s) →
        (safe_get_text_loop env target tsc R n i ef).2.1.statistics.retry_counts.get_text =
          ef.statistics.retry_counts.get_text)
  | 0, i, ef => by simp [safe_get_text_loop, addGetTextRetries]
  | n + 1, i, ef => by
    rw [safe_get_text_loop]
    cases hx : tsc i with
    | gotText s => simp
    | empty => exact safe_get_text_loop_retry env target tsc R n (i + 1) ef
    | stale =>
      dsimp only
      have hres := resolveElement_retry_counts ef env target
      rcases hq : resolveElement ef env target with ⟨r, ef'⟩
      rw [hq] at hres
      cases r with
      | ok p =>
        have ih := safe_get_text_loop_retry env target tsc R n (i + 1) ef'
        rw [show ef'.statistics.retry_counts = ef.statistics.retry_counts from hres] at ih
        exact ih
      | error err => exact ⟨by simp, fun s h => by simp at h⟩
    | failOther => exact safe_get_text_loop_retry env target tsc R n (i + 1) ef

theorem safe_get_text_retry (ef : ElementFinder) (env : String → SelOutcome)
    (target : Target) (R : Nat) (tsc : Nat → TextAttempt) :
    ((safe_get_text ef env target R tsc).1 = .ok none →
      (safe_get_text ef env target R tsc).2.1.statistics.retry_counts.get_text =
        ef.statistics.retry_counts.get_text + R) ∧
    (∀ s, (safe_get_text ef env target R tsc).1 = .ok (some s) →
      (safe_get_text ef env target R tsc).2.1.statistics.retry_counts.get_text =
        ef.statistics.retry_counts.get_text) := by
  have hres := resolveElement_retry_counts ef env target
  simp only [safe_get_text]
  rcases hq : resolveElement ef env target with ⟨r, ef'⟩
  rw [hq] at hres
  cases r with
  | ok p =>
    have ih := safe_get_text_loop_retry env target tsc R (R + 1) 0 ef'
    rw [show ef'.statistics.retry_counts = ef.statistics.retry_counts from hres] at ih
    exact ih
  | error err => exact ⟨by simp, fun s h => by simp at h⟩

/-- C10: whenever a safe operation enters its attempt loop and exhausts it
without success, the corresponding `retry_counts` entry grows by exactly the
retry parameter R (the parameter value, not the number of retries actually
performed), and when the operation succeeds that entry is unchanged even if
earlier attempts within the call failed. -/
theorem retry_counts_increment_semantics (ef : ElementFinder)
    (env : String → SelOutcome) (target : Target) (R : Nat) (text : String)
    (s : String) (sc : Nat → ClickAttempt) (isc : Nat → Nat → ClickAttempt)
    (ssc : Nat → SendAttempt) (tsc : Nat → TextAttempt) :
    ((safe_click ef env target R sc).1 = .ok false →
      (safe_click ef env target R sc).2.1.statistics.retry_counts.click =
        ef.statistics.retry_counts.click + R) ∧
    ((safe_click ef env target R sc).1 = .ok true →
      (safe_click ef env target R sc).2.1.statistics.retry_counts.click =
        ef.statistics.retry_counts.click) ∧
    ((safe_send_keys ef env target text R isc ssc).1 = .ok false →
      (safe_send_keys ef env target text R isc ssc).2.1.statistics.retry_counts.send_keys =
        ef.statistics.retry_counts.send_keys + R) ∧
    ((safe_send_keys ef env target text R isc ssc).1 = .ok true →
      (safe_send_keys ef env target text R isc ssc).2.1.statistics.retry_counts.send_keys =
        ef.statistics.retry_counts.send_keys) ∧
    ((safe_get_text ef env target R tsc).1 = .ok none →
      (safe_get_text ef env target R tsc).2.1.statistics.retry_counts.get_text =
        ef.statistics.retry_counts.get_text + R) ∧
    ((safe_get_text ef env target R tsc).1 = .ok (some s) →
      (safe_get_text ef env target R tsc).2.1.statistics.retry_counts.get_text =
        ef.statistics.retry_counts.get_text) :=
  ⟨(safe_click_retry ef env target R sc).1,
   (safe_click_retry ef env target R sc).2.1,
   (safe_send_keys_retry ef env target text R isc ssc).1,
   (safe_send_keys_retry ef env target text R isc ssc).2,
   (safe_get_text_retry ef env target R tsc).1,
   fun h => (safe_get_text_retry ef env target R tsc).2 s h⟩

theorem retry_counts_increment_semantics_witness :
    (safe_click (ElementFinder.init 0 10) env1 (Target.element 1) 2
        (fun _ => .notInteractable)).2.1.statistics.retry_counts.click =
      (ElementFinder.init 0 10).statistics.retry_counts.click + 2 ∧
    (safe_click (ElementFinder.init 0 10) env1 (Target.element 1) 2
        (fun _ => .success)).2.1.statistics.retry_counts.click =
      (ElementFinder.init 0 10).statistics.retry_counts.click ∧
    (safe_send_keys (ElementFinder.init 0 10) env1 (Target.element 1) "t" 2
        (fun _ _ => .success) (fun _ => .failOther)).2.1.statistics.retry_counts.send_keys =
      (ElementFinder.init 0 10).statistics.retry_counts.send_keys + 2 ∧
    (safe_get_text (ElementFinder.init 0 10) env1 (Target.element 1) 2
        (fun _ => .empty)).2.1.statistics.retry_counts.get_text =
      (ElementFinder.init 0 10).statistics.retry_counts.get_text + 2 ∧
    (safe_get_text (ElementFinder.init 0 10) env1 (Target.element 1) 2
        (fun _ => .gotText "hi")).2.1.statistics.retry_counts.get_text =
      (ElementFinder.init 0 10).statistics.retry_counts.get_text :=
  ⟨(retry_counts_increment_semantics (ElementFinder.init 0 10) env1 (Target.element 1)
      2 "t" "hi" (fun _ => .notInteractable) (fun _ _ => .success) (fun _ => .failOther)
      (fun _ => .empty)).1 rfl,
   (retry_counts_increment_semantics (ElementFinder.init 0 10) env1 (Target.element 1)
      2 "t" "hi" (fun _ => .success) (fun _ _ => .success) (fun _ => .failOther)
      (fun _ => .empty)).2.1 rfl,
   (retry_counts_increment_semantics (ElementFinder.init 0 10) env1 (Target.element 1)
      2 "t" "hi" (fun _ => .success) (fun _ _ => .success) (fun _ => .failOther)
      (fun _ => .empty)).2.2.1 rfl,
   (retry_counts_increment_semantics (ElementFinder.init 0 10) env1 (Target.element 1)
      2 "t" "hi" (fun _ => .success) (fun _ _ => .success) (fun _ => .failOther)
      (fun _ => .empty)).2.2.2.2.1 rfl,
   (retry_counts_increment_semantics (ElementFinder.init 0 10) env1 (Target.element 1)
      2 "t" "hi" (fun _ => .success) (fun _ _ => .success) (fun _ => .failOther)
      (fun _ => .gotText "hi")).2.2.2.2.2 rfl⟩

theorem decodeCounterPair_encode (v : StratStat) :
    decodeCounterPair (encodeCounterPair v) = some v := rfl

theorem decodeUsage_encodeUsage :
    ∀ l : List (String × StratStat), decodeUsage (encodeUsage l) = some l
  | [] => rfl
  | (k, v) :: rest => by
    have ih := decodeUsage_encodeUsage rest
    simp only [encodeUsage] at ih
    simp [encodeUsage, decodeUsage, decodeCounterPair_encode, ih]

theorem decodeStrategyRates_encode (r : StrategyRates) :
    decodeStrategyRates (encodeStrategyRates r) = some r := rfl

theorem decodeRetryCounts_encode (r : RetryCounts) :
    decodeRetryCounts (encodeRetryCounts r) = some r := rfl

theorem decodeTiming_encode (t : Timing) :
    decodeTiming (encodeTiming t) = some t := by
  cases t with
  | mk f s a => cases f <;> rfl

theorem decodeStats_encodeStats (st : Statistics) :
    decodeStats (encodeStats st) = some st := by
  cases st with
  | mk tot succ fl us sr rc tm =>
    simp only [encodeStats, decodeStats]
    rw [decodeUsage_encodeUsage, decodeStrategyRates_encode, decodeRetryCounts_encode,
      decodeTiming_encode]

/-- C5: saving the statistics to a file and loading them into a fresh tracker
reproduces counters identical to the original, including the per-selector and
per-strategy maps, the retry counts, and the timing extremes with the
`fastest_search` infinity sentinel. -/
theorem statistics_round_trip (ef : ElementFinder) (d t : Nat) :
    load_statistics (ElementFinder.init d t) (save_statistics ef) =
      ({ ElementFinder.init d t with statistics := ef.statistics }, true) ∧
    (load_statistics (ElementFinder.init d t) (save_statistics ef)).1.statistics =
      ef.statistics := by
  constructor
  · simp [load_statistics, save_statistics, decodeStats_encodeStats]
  · simp [load_statistics, save_statistics, decodeStats_encodeStats]

/-- C8: `reset_statistics` returns the timing extremes to the initial no-data
sentinel (`fastest_search` infinite, slowest and average zero) and zeroes all
counters: total, successful and failed searches, every per-selector and
per-strategy entry, and all per-operation retry counts. -/
theorem reset_statistics_zeroes_counters (ef : ElementFinder) :
    (reset_statistics ef).statistics = initStatistics ∧
    (reset_statistics ef).statistics.timing.fastest_search = .inf ∧
    (reset_statistics ef).statistics.timing.slowest_search = 0 ∧
    (reset_statistics ef).statistics.timing.average_search_time = 0 ∧
    (reset_statistics ef).statistics.total_searches = 0 ∧
    (reset_statistics ef).statistics.successful_searches = 0 ∧
    (reset_statistics ef).statistics.failed_searches = 0 ∧
    (∀ p ∈ (reset_statistics ef).statistics.selector_usage, p.2 = ⟨0, 0⟩) ∧
    (reset_statistics ef).statistics.strategy_success_rate = initStrategyRates ∧
    (reset_statistics ef).statistics.retry_counts = ⟨0, 0, 0⟩ := by
  refine ⟨rfl, rfl, rfl, rfl, rfl, rfl, rfl, ?_, rfl, rfl⟩
  intro p hp
  simp [reset_statistics, ElementFinder.init, initStatistics] at hp

/-- A finder whose statistics have genuinely been exercised: one successful
search against `env1` starting from a fresh tracker with driver handle 7 and
default timeout 42. -/
def ef9 : ElementFinder :=
  (find_element_with_fallback (ElementFinder.init 7 42) env1 ["a", "b"] .presence).2

/-- C9 counterexample: after `reset_statistics` the driver association and
the configured `default_timeout` ARE preserved (the constructor is re-invoked
with the current driver and timeout), refuting the claim that the binding is
discarded; the reset is still observable because the pre-reset statistics
were not the initial ones. -/
theorem reset_preserves_binding_counterexample :
    (reset_statistics ef9).driver = ef9.driver ∧
    (reset_statistics ef9).default_timeout = ef9.default_timeout ∧
    ef9.driver = 7 ∧ ef9.default_timeout = 42 ∧
    ef9.statistics ≠ initStatistics := by
  refine ⟨rfl, rfl, rfl, rfl, ?_⟩
  decide

/-- C9 amended: `reset_statistics` re-derives a completely fresh statistics
object by re-invoking the constructor, passing the finder's current driver
and `default_timeout` back to it — so after a reset the driver association
and the configured `default_timeout` are preserved and only the statistics
are discarded. -/
theorem reset_statistics_reinit (ef : ElementFinder) :
    reset_statistics ef = ElementFinder.init ef.driver ef.default_timeout ∧
    (reset_statistics ef).driver = ef.driver ∧
    (reset_statistics ef).default_timeout = ef.default_timeout ∧
    (reset_statistics ef).statistics = initStatistics :=
  ⟨rfl, rfl, rfl, rfl⟩

/-- C7 counterexample: with the override absent, the CI variable present but
set to the empty string, and the configured default false, the code resolves
headless to false — the claim that a merely *present* variable forces
headless true predicts true here. -/
theorem headless_presence_counterexample :
    (some "" : Option String).isSome = true ∧
    resolve_headless none (some "") none (some false) = false ∧
    "--headless=new" ∉ (create_profile_options "chatgpt" none (some "") none
      (some false) "profiles" "ua").arguments := by
  refine ⟨rfl, rfl, ?_⟩
  decide

/-- C7 amended: headless mode is resolved with exactly three-tier precedence
where the environment tier fires on variables set to a non-empty value: an
explicit override wins; otherwise a non-empty `GITHUB_ACTIONS` or `HEADLESS`
forces headless true; otherwise the configured default (absent meaning
false) applies; in particular, with the override absent, the CI variable set
non-empty and the configured default false, the created session options are
headless. -/
theorem headless_resolution_three_tier (b : Bool) (gha hdl : Option String)
    (cfg : Option Bool) :
    resolve_headless (some b) gha hdl cfg = b ∧
    ((envTruthy gha || envTruthy hdl) = true →
      resolve_headless none gha hdl cfg = true) ∧
    ((envTruthy gha || envTruthy hdl) = false →
      resolve_headless none gha hdl cfg = cfg.getD false) ∧
    "--headless=new" ∈ (create_profile_options "chatgpt" none (some "true") none
      (some false) "profiles" "ua").arguments := by
  refine ⟨rfl, ?_, ?_, ?_⟩
  · intro h
    simp [resolve_headless, h]
  · intro h
    simp [resolve_headless, h]
  · decide

theorem headless_resolution_three_tier_witness :
    resolve_headless (some false) (some "true") none (some true) = false ∧
    resolve_headless none (some "true") none (some false) = true ∧
    resolve_headless none none none (some true) = true ∧
    "--headless=new" ∈ (create_profile_options "chatgpt" none (some "true") none
      (some false) "profiles" "ua").arguments := by
  have h1 := headless_resolution_three_tier false (some "true") none (some true)
  have h2 := headless_resolution_three_tier true (some "true") none (some false)
  have h3 := headless_resolution_three_tier true none none (some true)
  exact ⟨h1.1, h2.2.1 (by decide), by simpa using h3.2.2.1 (by decide), h1.2.2.2⟩

end ChatAuto
